import Mathlib

deriving instance DecidableEq for Except

/-!
Verification development for the tetsuo-discord-imagegen effect pipeline.

This file shallowly embeds the effect pipeline of the repository:
pixels are RGBA quadruples of naturals, Python floats are modelled as
exact rationals, Python exceptions are modelled with `Except String`,
and the NumPy random number generator together with the two image
resampling library routines (Gaussian blur of radius 0.5 and the
resize filters) are supplied as explicit environment parameters, since
the pipeline only pipes their outputs through.  Python `list.append` /
`list.pop` history stacks are stored most-recent-first.
-/

set_option maxRecDepth 40000

namespace Tetimi

/-- One pixel: red, green, blue, alpha channels.  In RGB mode the alpha
field is kept at 255 (PIL reports alpha 255 when an RGB image is
converted to RGBA); in L mode the grey value is stored in `r`. -/
structure Pix where
  r : ℕ
  g : ℕ
  b : ℕ
  a : ℕ
  deriving DecidableEq, Repr

/-- PIL image mode. -/
inductive Mode where
  | L
  | RGB
  | RGBA
  deriving DecidableEq, Repr

/-- A raster image: mode, size and the pixel grid (`px` lists the rows,
top to bottom). -/
structure Img where
  mode : Mode
  w : ℕ
  h : ℕ
  px : List (List Pix)
  deriving DecidableEq, Repr

/-- Well-formedness of an image: the grid matches the declared size and
every channel fits in a byte; outside RGBA mode the alpha field is the
conventional 255. -/
def Img.wf (img : Img) : Prop :=
  img.px.length = img.h ∧
  (∀ row ∈ img.px, row.length = img.w ∧
    ∀ p ∈ row, p.r ≤ 255 ∧ p.g ≤ 255 ∧ p.b ≤ 255 ∧ p.a ≤ 255 ∧
      (img.mode ≠ Mode.RGBA → p.a = 255))

instance (img : Img) : Decidable img.wf := by
  unfold Img.wf; infer_instance

/-- Python `int()` on a nonnegative float / `np.float` to `uint8`
assignment: truncation toward zero. -/
def qtrunc (q : ℚ) : ℤ :=
  if 0 ≤ q then ⌊q⌋ else ⌈q⌉

/-- Truncation to a natural, for values known nonnegative. -/
def qtruncN (q : ℚ) : ℕ := (qtrunc q).toNat

/-- Python `min` on two rationals (kept as a plain `if` so that
concrete runs reduce). -/
def pymin (a b : ℚ) : ℚ := if a ≤ b then a else b

/-- Python `max` on two rationals. -/
def pymax (a b : ℚ) : ℚ := if b ≤ a then a else b

/-- `np.clip(x, 0, 255)`. -/
def clip255 (q : ℚ) : ℚ := pymin 255 (pymax 0 q)

/-- `min(1.0, max(0.0, x))` as used by intensity normalization. -/
def clamp01 (q : ℚ) : ℚ := pymin 1 (pymax 0 q)

/-- Rounded division used by PIL's integer alpha-compositing
(`(v + 0x80) / 255` style rounding to nearest). -/
def rnd (q : ℚ) : ℤ := ⌊q + 1/2⌋

/-- A value handed to `ImageUtils.interpolate_value`: a Python scalar
or a tuple/list of scalars. -/
inductive IV where
  | s (q : ℚ)
  | t (l : List ℚ)
  deriving DecidableEq, Repr

/-- `ImageUtils.interpolate_value` (src/core/utils.py:118-150): checks
the progress domain, then linearly blends scalars or element-wise
equal-length sequences, raising `ValueError` otherwise. -/
def interpolate_value (start fin : IV) (progress : ℚ) : Except String IV :=
  if ¬ (0 ≤ progress ∧ progress ≤ 1) then
    .error "Progress must be between 0 and 1"
  else
    match start, fin with
    | .s a, .s b => .ok (.s (a + (b - a) * progress))
    | .t as_, .t bs =>
        if as_.length ≠ bs.length then
          .error "Start and end sequences must have same length"
        else
          .ok (.t (List.zipWith (fun a b => a + (b - a) * progress) as_ bs))
    | _, _ => .error "Cannot interpolate between incompatible types"

/-- A Python `for` loop building a list, where the body may raise:
the map into the `Except` monad. -/
def mapE (f : α → Except String β) : List α → Except String (List β)
  | [] => .ok []
  | x :: xs => do
      let y ← f x
      let ys ← mapE f xs
      .ok (y :: ys)

/-- A Python `for` loop threading state, where the body may raise:
the fold into the `Except` monad. -/
def foldE (f : β → α → Except String β) (init : β) : List α → Except String β
  | [] => .ok init
  | x :: xs => do
      let b ← f init x
      foldE f b xs

/-- `ImageUtils.ensure_size_even` (src/core/utils.py:211-226). -/
def ensure_size_even (width height : ℕ) : ℕ × ℕ :=
  (if width % 2 = 0 then width else width + 1,
   if height % 2 = 0 then height else height + 1)

/-- Environment of the pipeline: the NumPy random streams and the
opaque Gaussian-blur library routine whose outputs the code only pipes
through.  `ints` feeds `np.random.randint` (two draws per glitch
line), `gauss` gives the standard-normal sample for pixel `(y, x)` and
channel `c` used by `np.random.normal`, and `blur` is PIL's
`GaussianBlur(0.5)` on one 8-bit channel. -/
structure Env where
  ints : List ℤ
  gauss : ℕ → ℕ → ℕ → ℚ
  blur : List (List ℕ) → List (List ℕ)

/-- `np.random.randint(low, high)` driven by the environment stream:
raises when `low >= high`, otherwise yields a value in `[low, high)`
determined by draw number `k`. -/
def randint (env : Env) (k : ℕ) (lo hi : ℤ) : Except String ℤ :=
  if hi ≤ lo then .error "low >= high"
  else .ok (lo + (env.ints.getD k 0 - lo).emod (hi - lo))

/-- View a pixel of the given mode as an RGBA quadruple, the way PIL
pastes/converts it (grey replicated, RGB gains alpha 255). -/
def Pix.asRGBA (m : Mode) (p : Pix) : Pix :=
  match m with
  | .L => ⟨p.r, p.r, p.r, 255⟩
  | .RGB => { p with a := 255 }
  | .RGBA => p

/-- `image.convert('RGB')`: drops alpha / expands grey. -/
def Img.toRGB (img : Img) : Img :=
  if img.mode = .RGB then img
  else { img with
         mode := .RGB
         px := img.px.map (List.map (fun p => { p.asRGBA img.mode with a := 255 })) }

/-- `image.convert('RGBA')`. -/
def Img.toRGBA (img : Img) : Img :=
  if img.mode = .RGBA then img
  else { img with mode := .RGBA, px := img.px.map (List.map (Pix.asRGBA img.mode)) }

/-- PIL's alpha compositing of one source pixel over one destination
pixel (`AlphaComposite.c`), with the fixed-point rounded divisions
modelled as exact rational division rounded to nearest. -/
def compositePix (dst src : Pix) : Pix :=
  if src.a = 0 then dst
  else
    let blend : ℚ := (dst.a : ℚ) * (255 - (src.a : ℚ))
    let outa255 : ℚ := (src.a : ℚ) * 255 + blend
    let ch (s d : ℕ) : ℕ :=
      (rnd (((s : ℚ) * src.a * 255 + (d : ℚ) * blend) / outa255)).toNat
    ⟨ch src.r dst.r, ch src.g dst.g, ch src.b dst.b, (rnd (outa255 / 255)).toNat⟩

/-- `Image.alpha_composite(dst, src)` pixel-wise. -/
def alphaComposite (dst src : Img) : Img :=
  { dst with
    mode := .RGBA
    px := List.zipWith (List.zipWith compositePix) dst.px src.px }

/-- `ImageEnhance.Brightness(img).enhance(factor)`, i.e.
`Image.blend(black, img, factor)` (`Blend.c`): per band
`factor * value`, truncated to an integer and clipped at 255 when the
factor extrapolates (factor is always `1 + intensity ≥ 1` here).  In
RGBA mode the alpha band is blended as well (the degenerate black image
has alpha 0). -/
def enhanceBrightness (img : Img) (factor : ℚ) : Img :=
  let f (c : ℕ) : ℕ := min 255 (qtruncN (factor * (c : ℚ)))
  { img with px := img.px.map (List.map (fun p =>
      ⟨f p.r, f p.g, f p.b, if img.mode = .RGBA then f p.a else p.a⟩)) }

/-- `BaseImageProcessor` state: the base image, the working image and
the undo history (most recent first; Python appends and pops at the
right end of `self.history`). -/
structure Proc where
  original : Img
  current : Img
  history : List Img
  deriving DecidableEq, Repr

/-- `BaseImageProcessor.__init__` on an already-loaded image. -/
def Proc.init (img : Img) : Proc := ⟨img, img, []⟩

/-- `self.history.append(self.current_image.copy())`. -/
def Proc.push (p : Proc) : Proc := { p with history := p.current :: p.history }

/-- `BaseImageProcessor.ensure_rgb` (src/core/image_processor.py:89-95):
records a history snapshot only when a conversion happens. -/
def ensure_rgb (p : Proc) : Proc :=
  if p.current.mode ≠ Mode.RGB then
    { p.push with current := p.current.toRGB }
  else p

/-- `BaseImageProcessor.ensure_rgba` (src/core/image_processor.py:97-103). -/
def ensure_rgba (p : Proc) : Proc :=
  if p.current.mode ≠ Mode.RGBA then
    { p.push with current := p.current.toRGBA }
  else p

/-- `BaseImageProcessor.undo` (src/core/image_processor.py:225-236):
returns `False` and leaves the state alone on empty history, otherwise
pops the most recent snapshot into `current_image`. -/
def undo (p : Proc) : Bool × Proc :=
  match p.history with
  | [] => (false, p)
  | h :: t => (true, { p with current := h, history := t })

/-- `np.roll(row, offset)`: element `i` of the result is element
`(i - offset) mod n` of the input. -/
def rollRow (row : List Pix) (offset : ℤ) : List Pix :=
  let n := row.length
  if n = 0 then row
  else (List.range n).map (fun i =>
    row.getD ((((i : ℤ) - offset).emod (n : ℤ)).toNat) ⟨0, 0, 0, 0⟩)

/-- One iteration of the glitch line loop
(src/core/effect_processor.py:34-41): draw a line position and an
offset, then roll that row. -/
def glitchStep (env : Env) (hgt : ℕ) (intensity : ℚ)
    (arr : List (List Pix)) (k : ℕ) : Except String (List (List Pix)) := do
  let y ← randint env (2 * k) 0 ((hgt : ℤ) - 1)
  let off ← randint env (2 * k + 1) (-(qtrunc (intensity * 20))) (qtrunc (intensity * 20))
  if 0 ≤ y ∧ y < (hgt : ℤ) then
    .ok (arr.mapIdx (fun i row => if (i : ℤ) = y then rollRow row off else row))
  else
    .ok arr

/-- `EffectProcessor.apply_glitch` (src/core/effect_processor.py:14-43). -/
def apply_glitch (env : Env) (p : Proc) (intensity : ℚ) : Except String Proc :=
  if ¬ (0 ≤ intensity ∧ intensity ≤ 1) then
    .error "Intensity must be between 0 and 1"
  else
    let p := ensure_rgb p
    let p := p.push
    let hgt := p.current.h
    let numLines := qtruncN (intensity * (hgt : ℚ) * (1/10))
    do
      let arr ← foldE (glitchStep env hgt intensity) p.current.px (List.range numLines)
      .ok { p with current := { p.current with px := arr } }

/-- A colour channel name as accepted by `offset_channel`. -/
inductive CH where
  | R
  | G
  | B
  deriving DecidableEq, Repr

def Pix.getCh (p : Pix) : CH → ℕ
  | .R => p.r
  | .G => p.g
  | .B => p.b

def Pix.setCh (p : Pix) : CH → ℕ → Pix
  | .R, v => { p with r := v }
  | .G, v => { p with g := v }
  | .B, v => { p with b := v }

/-- `BaseImageProcessor.offset_channel`
(src/core/image_processor.py:191-223): snapshots, builds the wrapped
shifted channel, runs it through the Gaussian-blur routine, then
`set_channel` snapshots again and merges the channel back. -/
def offset_channel (env : Env) (p : Proc) (c : CH) (ox : ℤ) (oy : ℤ := 0) : Proc :=
  let p := p.push
  let img := p.current
  let data := img.px.map (List.map (fun q => q.getCh c))
  let shifted := (List.range img.h).map (fun y => (List.range img.w).map (fun x =>
    let sx := ((((x : ℤ) - ox).emod (img.w : ℤ))).toNat
    let sy := ((((y : ℤ) - oy).emod (img.h : ℤ))).toNat
    (data.getD sy []).getD sx 0))
  let blurred := env.blur shifted
  let p := p.push
  { p with current := { img with px := img.px.mapIdx (fun y row => row.mapIdx (fun x q =>
      q.setCh c ((blurred.getD y []).getD x 0))) } }

/-- `EffectProcessor.apply_chromatic_aberration`
(src/core/effect_processor.py:45-64). -/
def apply_chromatic_aberration (env : Env) (p : Proc) (offset : ℚ) :
    Except String Proc :=
  if ¬ (0 ≤ offset ∧ offset ≤ 1) then
    .error "Offset must be between 0 and 1"
  else
    let p := ensure_rgb p
    let p := p.push
    let maxOffset : ℤ := qtrunc ((p.current.w : ℚ) * offset * (1/10))
    let p := offset_channel env p .R (-maxOffset)
    let p := offset_channel env p .B maxOffset
    .ok p

/-- `EffectProcessor.apply_scan_lines`
(src/core/effect_processor.py:66-93): validates, snapshots, draws the
black line overlay every `gap` rows at `int(opacity*255)` alpha,
converts the working image to RGBA (a second snapshot) and alpha
composites.  `range(0, height, gap)` needs an integral gap, hence the
TypeError case. -/
def apply_scan_lines (p : Proc) (gap opacity : ℚ) : Except String Proc :=
  if gap < 1 then .error "Gap must be at least 1 pixel"
  else if ¬ (0 ≤ opacity ∧ opacity ≤ 1) then
    .error "Opacity must be between 0 and 1"
  else if gap.den ≠ 1 then
    .error "TypeError: float object cannot be interpreted as an integer"
  else
    let p := p.push
    let g : ℕ := gap.num.toNat
    let alpha := qtruncN (opacity * 255)
    let img0 := p.current
    let overlay : Img := { mode := .RGBA
                           w := img0.w
                           h := img0.h
                           px := (List.range img0.h).map (fun y =>
                             (List.range img0.w).map (fun _ =>
                               if y % g = 0 then (⟨0, 0, 0, alpha⟩ : Pix)
                               else ⟨0, 0, 0, 0⟩)) }
    let p := ensure_rgba p
    .ok { p with current := alphaComposite p.current overlay }

/-- `EffectProcessor.apply_noise` (src/core/effect_processor.py:95-115):
adds `np.random.normal(0, intensity*50)` per channel, clips to
`[0, 255]` and casts back to `uint8`. -/
def apply_noise (env : Env) (p : Proc) (intensity : ℚ) : Except String Proc :=
  if ¬ (0 ≤ intensity ∧ intensity ≤ 1) then
    .error "Intensity must be between 0 and 1"
  else
    let p := ensure_rgb p
    let p := p.push
    let img := p.current
    .ok { p with current := { img with px := img.px.mapIdx (fun y row =>
      row.mapIdx (fun x q =>
        let f (ch c : ℕ) : ℕ :=
          qtruncN (clip255 ((c : ℚ) + intensity * 50 * env.gauss y x ch))
        ⟨f 0 q.r, f 1 q.g, f 2 q.b, q.a⟩)) } }

/-- Model of the runtime's floating-point sine (`np.sin`): the degree-7
Taylor polynomial.  Every theorem below that meets it only uses its
value at argument 0, where it is exact (`sinModel 0 = 0`). -/
def sinModel (q : ℚ) : ℚ := q - q ^ 3 / 6 + q ^ 5 / 120 - q ^ 7 / 5040

/-- `EffectProcessor.apply_energy_effect`
(src/core/effect_processor.py:117-145): adds the sine displacement
pattern `sin(0.1x + 0.1y) * intensity * 30` to each channel, clipped. -/
def apply_energy_effect (p : Proc) (intensity : ℚ) : Except String Proc :=
  if ¬ (0 ≤ intensity ∧ intensity ≤ 1) then
    .error "Intensity must be between 0 and 1"
  else
    let p := ensure_rgb p
    let p := p.push
    let img := p.current
    .ok { p with current := { img with px := img.px.mapIdx (fun y row =>
      row.mapIdx (fun x q =>
        let d := sinModel ((x : ℚ) * (1/10) + (y : ℚ) * (1/10)) * intensity * 30
        let f (c : ℕ) : ℕ := qtruncN (clip255 ((c : ℚ) + d))
        ⟨f q.r, f q.g, f q.b, q.a⟩)) } }

/-- `EffectProcessor.apply_pulse_effect`
(src/core/effect_processor.py:147-160). -/
def apply_pulse_effect (p : Proc) (intensity : ℚ) : Except String Proc :=
  if ¬ (0 ≤ intensity ∧ intensity ≤ 1) then
    .error "Intensity must be between 0 and 1"
  else
    let p := p.push
    .ok { p with current := enhanceBrightness p.current (1 + intensity) }

/-- `EffectProcessor.apply_consciousness_effect`
(src/core/effect_processor.py:162-179): snapshots, then runs energy at
half scale, pulse at 0.3 scale and, above intensity 0.5, chromatic
aberration at 0.4 scale. -/
def apply_consciousness_effect (env : Env) (p : Proc) (intensity : ℚ) :
    Except String Proc :=
  if ¬ (0 ≤ intensity ∧ intensity ≤ 1) then
    .error "Intensity must be between 0 and 1"
  else do
    let p := p.push
    let p ← apply_energy_effect p (intensity * (1/2))
    let p ← apply_pulse_effect p (intensity * (3/10))
    if intensity > 1/2 then
      apply_chromatic_aberration env p (intensity * (2/5))
    else
      .ok p

/-- A parameter value in an effect spec: a scalar, a `(start, end)`
2-tuple, or a 3-tuple (e.g. an RGB colour). -/
inductive PV where
  | num (q : ℚ)
  | pair (a b : ℚ)
  | triple (a b c : ℚ)
  deriving DecidableEq, Repr

/-- A parameter mapping, `dict[str, ...]` as an association list. -/
abbrev Params := List (String × PV)

/-- Python `params.get(key, default)`. -/
def Params.get (ps : Params) (key : String) (dflt : PV) : PV :=
  match ps.find? (fun kv => kv.1 = key) with
  | some kv => kv.2
  | none => dflt

/-- Passing a non-scalar where the effect compares against its bounds
raises a `TypeError` in Python. -/
def PV.asScalar : PV → Except String ℚ
  | .num q => .ok q
  | _ => .error "TypeError: comparison not supported between tuple and number"

/-- `EffectProcessor.apply_effect` (src/core/effect_processor.py:181-205):
string-keyed dispatch with per-effect defaults; an unrecognised name
raises the unknown-effect error. -/
def apply_effect (env : Env) (p : Proc) (name : String) (params : Params) :
    Except String Proc :=
  if name = "glitch" then do
    apply_glitch env p (← (params.get "intensity" (.num (1/2))).asScalar)
  else if name = "chroma" then do
    apply_chromatic_aberration env p (← (params.get "offset" (.num (1/2))).asScalar)
  else if name = "scan" then do
    apply_scan_lines p (← (params.get "gap" (.num 2)).asScalar)
      (← (params.get "opacity" (.num (1/2))).asScalar)
  else if name = "noise" then do
    apply_noise env p (← (params.get "intensity" (.num (1/2))).asScalar)
  else if name = "energy" then do
    apply_energy_effect p (← (params.get "intensity" (.num (1/2))).asScalar)
  else if name = "pulse" then do
    apply_pulse_effect p (← (params.get "intensity" (.num (1/2))).asScalar)
  else if name = "consciousness" then do
    apply_consciousness_effect env p (← (params.get "intensity" (.num (1/2))).asScalar)
  else
    .error ("Unknown effect: " ++ name)

/-- `EffectProcessor.apply_effects_sequence`
(src/core/effect_processor.py:207-215): a plain `for` loop applying
each spec in the order it appears in the list; an exception aborts the
remainder. -/
def apply_effects_sequence (env : Env) (p : Proc)
    (effects : List (String × Params)) : Except String Proc :=
  foldE (fun p e => apply_effect env p e.1 e.2) p effects

/-- The effect names `AnimationProcessor._validate_effects` accepts
(src/core/animation_processor.py:46-48). -/
def validSet : List String :=
  ["glitch", "chroma", "scan", "noise", "energy", "pulse", "consciousness"]

/-- The intensity rewrite of `AnimationProcessor._validate_effects`
(src/core/animation_processor.py:54-63): scalars and 2-tuples are
divided by 100 and clamped into [0,1]; a longer tuple is an instance
of `tuple` too and is collapsed to its first two entries. -/
def normalizeIntensity : PV → PV
  | .num q => .num (clamp01 (q / 100))
  | .pair a b => .pair (clamp01 (a / 100)) (clamp01 (b / 100))
  | .triple a b _ => .pair (clamp01 (a / 100)) (clamp01 (b / 100))

/-- The in-place mutation `params['intensity'] = ...` applied to one
spec. -/
def normalizeSpec (e : String × Params) : String × Params :=
  (e.1, e.2.map (fun kv =>
    if kv.1 = "intensity" then (kv.1, normalizeIntensity kv.2) else kv))

/-- `AnimationProcessor._validate_effects`
(src/core/animation_processor.py:44-63): raises on the first invalid
name, otherwise rewrites every intensity parameter in place; the
mutated spec list is what `generate_frames` goes on to use. -/
def validate_effects (effects : List (String × Params)) :
    Except String (List (String × Params)) :=
  match effects.find? (fun e => ¬ validSet.contains e.1) with
  | some e => .error ("Invalid effect: " ++ e.1)
  | none => .ok (effects.map normalizeSpec)

/-- One parameter of `AnimationProcessor._interpolate_parameters`
(src/core/animation_processor.py:65-75): 2-tuples go through
`ImageUtils.interpolate_value`, everything else passes through. -/
def interpolate_param (v : PV) (progress : ℚ) : Except String PV :=
  match v with
  | .pair a b => do
      match ← interpolate_value (.s a) (.s b) progress with
      | .s q => .ok (.num q)
      | .t _ => .ok v
  | v => .ok v

/-- `AnimationProcessor._interpolate_parameters`. -/
def interpolate_parameters (ps : Params) (progress : ℚ) : Except String Params :=
  mapE (fun kv => do
    let v ← interpolate_param kv.2 progress
    .ok (kv.1, v)) ps

/-- The body of the frame loop of `AnimationProcessor.generate_frames`
(src/core/animation_processor.py:88-104): a fresh processor on a fresh
copy of the base image, then each effect applied with interpolated
parameters, where a failing effect application is logged and skipped
(`try/except ... continue`) while interpolation errors propagate. -/
def render_frame (env : Env) (base : Img) (effects : List (String × Params))
    (progress : ℚ) : Except String Img := do
  let p ← foldE (fun p e => do
      let fp ← interpolate_parameters e.2 progress
      match apply_effect env p e.1 fp with
      | .ok p' => .ok p'
      | .error _ => .ok p) (Proc.init base) effects
  .ok p.current

/-- `AnimationProcessor.generate_frames`
(src/core/animation_processor.py:77-113): validates (mutating the spec
list), then for each `i in range(num_frames)` computes
`progress = i / (num_frames - 1)` — with no guard, so `num_frames = 1`
divides by zero — and renders the frame. -/
def generate_frames (env : Env) (img : Img) (effects : List (String × Params))
    (numFrames : ℕ) : Except String (List Img) := do
  let effs ← validate_effects effects
  mapE (fun (i : ℕ) =>
    if numFrames - 1 = 0 then
      .error "ZeroDivisionError: division by zero"
    else
      render_frame env img effs ((i : ℚ) / ((numFrames : ℚ) - 1))) (List.range numFrames)

/-- The canvas preparation of `AnimationProcessor.__init__`
(src/core/animation_processor.py:29-37): if either dimension is odd,
create a transparent RGBA canvas of the evened size and paste the base
image at `((nw - w) // 2, (nh - h) // 2)`. -/
def prepare_canvas (img : Img) : Img :=
  let nw := (ensure_size_even img.w img.h).1
  let nh := (ensure_size_even img.w img.h).2
  if (nw, nh) ≠ (img.w, img.h) then
    let ox := (nw - img.w) / 2
    let oy := (nh - img.h) / 2
    { mode := .RGBA
      w := nw
      h := nh
      px := (List.range nh).map (fun y => (List.range nw).map (fun x =>
        if ox ≤ x ∧ x < ox + img.w ∧ oy ≤ y ∧ y < oy + img.h then
          Pix.asRGBA img.mode ((img.px.getD (y - oy) []).getD (x - ox) ⟨0, 0, 0, 0⟩)
        else ⟨0, 0, 0, 0⟩)) }
  else img

/-- Luminance of a pixel under `image.convert('L')` (PIL's ITU-R 601-2
integer formula `(r*19595 + g*38470 + b*7471 + 0x8000) >> 16`). -/
def lum (m : Mode) (p : Pix) : ℕ :=
  match m with
  | .L => p.r
  | _ => (p.r * 19595 + p.g * 38470 + p.b * 7471 + 32768) / 65536

/-- `image.convert('L')`. -/
def Img.toL (img : Img) : Img :=
  { img with
    mode := .L
    px := img.px.map (List.map (fun p => ⟨lum img.mode p, 0, 0, 255⟩)) }

/-- The 70-glyph ramp `gscale1` of `convertImageToAscii`
(src/tetimi.py:722). -/
def gscale1 : List Char :=
  "$@B%8&WM#*oahkbdpqwmZO0QLCJUYXzcvunxrjft/\\|()1\x7b\x7d[]?-_+~<>i!lI;:,\"^`\x27. ".toList

/-- The 10-glyph ramp `gscale2` (src/tetimi.py:723). -/
def gscale2 : List Char := "@%#*+=-:. ".toList

/-- String indexing with Python's `IndexError`. -/
def charAt (cs : List Char) (i : ℕ) : Except String Char :=
  if h : i < cs.length then .ok (cs.get ⟨i, h⟩)
  else .error "IndexError: string index out of range"

/-- The pixel values of the crop `image.crop((x1, y1, x2, y2))`,
row-major. -/
def cropVals (g : List (List ℕ)) (x1 x2 y1 y2 : ℕ) : List ℕ :=
  (((g.drop y1).take (y2 - y1)).map (fun row => (row.drop x1).take (x2 - x1))).flatten

/-- `int(np.array(img).mean())`: the mean of an empty crop is NaN and
`int(NaN)` raises. -/
def cropMean (vals : List ℕ) : Except String ℕ :=
  if vals.length = 0 then .error "ValueError: cannot convert float NaN to integer"
  else .ok (qtruncN ((vals.sum : ℚ) / (vals.length : ℚ)))

/-- One cell of `convertImageToAscii`: crop, average, index into the
ramp (src/tetimi.py:748-756). -/
def asciiCell (grid : List (List ℕ)) (moreLevels : Bool) (x1 x2 y1 y2 : ℕ) :
    Except String Char := do
  let avg ← cropMean (cropVals grid x1 x2 y1 y2)
  if moreLevels then charAt gscale1 (avg * 69 / 255)
  else charAt gscale2 (avg * 9 / 255)

/-- `ImageProcessor.convertImageToAscii` (src/tetimi.py:720-758):
luminance conversion, cell geometry `w = W/cols`, `h = w/scale`,
`rows = int(H/h)`, the size check raising
`"Image too small for specified columns"`, then per cell the cropped
mean mapped into the glyph ramp. -/
def convertImageToAscii (img : Img) (cols : ℕ) (scale : ℚ) (moreLevels : Bool) :
    Except String (List String) :=
  let image := img.toL
  let W := image.w
  let H := image.h
  if cols = 0 then .error "ZeroDivisionError: division by zero"
  else if scale = 0 then .error "ZeroDivisionError: float division by zero"
  else
    let w : ℚ := (W : ℚ) / (cols : ℚ)
    let h : ℚ := w / scale
    if h = 0 then .error "ZeroDivisionError: float division by zero"
    else
      let rows : ℤ := qtrunc ((H : ℚ) / h)
      if (cols : ℤ) > (W : ℤ) ∨ rows > (H : ℤ) then
        .error "Image too small for specified columns"
      else
        let rowsN := rows.toNat
        let grid := image.px.map (List.map Pix.r)
        mapE (fun (j : ℕ) => do
          let y1 := (qtrunc ((j : ℚ) * h)).toNat
          let y2 := if j = rowsN - 1 then H else (qtrunc (((j : ℚ) + 1) * h)).toNat
          let cs ← mapE (fun (i : ℕ) =>
            let x1 := (qtrunc ((i : ℚ) * w)).toNat
            let x2 := if i = cols - 1 then W else (qtrunc (((i : ℚ) + 1) * w)).toNat
            asciiCell grid moreLevels x1 x2 y1 y2) (List.range cols)
          .ok (String.mk cs)) (List.range rowsN)

/-- `ASCIIProcessor` character ramps (src/core/ascii_processor.py:13-14). -/
def basic_chars : List Char := " .:-=+*#%@".toList

def detailed_chars : List Char := " .,:;irsXA253hMHGS#9B&@".toList

/-- `ASCIIProcessor.convert_to_ascii` (src/core/ascii_processor.py:66-95):
the same cell geometry as `convertImageToAscii`, but with NO size-error
path — when `cols > width or rows > height` the image is simply resized
with the LANCZOS filter (NEAREST otherwise).  The two resampling
library routines are passed as environment parameters; the code only
maps their output pixels into the ramp. -/
def convert_to_ascii (lanczos nearest : Img → ℕ → ℕ → Img)
    (img : Img) (cols : ℕ) (scale : ℚ) (detailed : Bool) :
    Except String (List String) :=
  let image := img.toL
  let W := image.w
  let H := image.h
  if cols = 0 then .error "ZeroDivisionError: division by zero"
  else if scale = 0 then .error "ZeroDivisionError: float division by zero"
  else
    let w : ℚ := (W : ℚ) / (cols : ℚ)
    let h : ℚ := w / scale
    if h = 0 then .error "ZeroDivisionError: float division by zero"
    else
      let rows : ℤ := qtrunc ((H : ℚ) / h)
      let resized :=
        if (cols : ℤ) > (W : ℤ) ∨ rows > (H : ℤ) then lanczos image cols rows.toNat
        else nearest image cols rows.toNat
      let chars := if detailed then detailed_chars else basic_chars
      mapE (fun row => do
        let cs ← mapE (fun p => charAt chars (p.r * (chars.length - 1) / 255)) row
        .ok (String.mk cs)) resized.px

/-- The per-effect step of the frame loop of `generate_frames` as a
total state transformer: interpolate this spec's parameters, apply the
effect, and on any exception keep the state (the `try/except ...
continue` of src/core/animation_processor.py:96-100). -/
def frame_step (env : Env) (progress : ℚ) (p : Proc) (e : String × Params) : Proc :=
  match (do
    let fp ← interpolate_parameters e.2 progress
    apply_effect env p e.1 fp : Except String Proc) with
  | .ok p' => p'
  | .error _ => p

/-- The image a single animation frame renders to, at the given
progress, as a total function (equal to `render_frame` whenever the
progress lies in [0, 1]; see `render_frame_eq_frame_image`). -/
def frame_image (env : Env) (base : Img) (effects : List (String × Params))
    (progress : ℚ) : Img :=
  (effects.foldl (frame_step env progress) (Proc.init base)).current

/-- Pixel access at column `x`, row `y`. -/
def pxAt (img : Img) (x y : ℕ) : Pix := (img.px.getD y []).getD x ⟨0, 0, 0, 0⟩

/-- The value `_interpolate_parameters` produces for one parameter, as
a total function (it never raises when the progress is in [0, 1]). -/
def interpolate_paramT (v : PV) (progress : ℚ) : PV :=
  match v with
  | .pair a b => .num (a + (b - a) * progress)
  | v => v

/-- A fixed environment for concrete runs: empty random stream, zero
Gaussian samples, identity blur. -/
def envC : Env := ⟨[], fun _ _ _ => 0, fun g => g⟩

/-- A concrete 1×1 mid-grey RGB base image. -/
def img1 : Img := ⟨.RGB, 1, 1, [[⟨200, 200, 200, 255⟩]]⟩

/-- A concrete 1×1 RGBA base image with a non-opaque alpha. -/
def imgA : Img := ⟨.RGBA, 1, 1, [[⟨10, 20, 30, 200⟩]]⟩

/-- The spec `('scan', {'gap': 2, 'opacity': 0.5})`. -/
def scanSpec : String × Params := ("scan", [("gap", PV.num 2), ("opacity", PV.num (1/2))])

/-- The spec `('pulse', {'intensity': 0.3})`. -/
def pulseSpec : String × Params := ("pulse", [("intensity", PV.num (3/10))])

/-- A scan spec whose gap of 0 makes `apply_scan_lines` raise on every
state. -/
def badScanSpec : String × Params := ("scan", [("gap", PV.num 0)])

/-- The spec `('pulse', {'intensity': (30, 80)})` with a raw animation
range. -/
def rangePulseSpec : String × Params := ("pulse", [("intensity", PV.pair 30 80)])

/-- A concrete 3×1 image (both dimensions odd / one odd). -/
def imgOdd : Img := ⟨.RGB, 3, 1, [[⟨1, 2, 3, 255⟩, ⟨4, 5, 6, 255⟩, ⟨7, 8, 9, 255⟩]]⟩

/-- The processor state reached from `img1` by one pulse at intensity
0.5 (`1.5 * 200` clips to 255). -/
def pulsedProc : Proc := ⟨img1, ⟨.RGB, 1, 1, [[⟨255, 255, 255, 255⟩]]⟩, [img1]⟩

/-- A concrete 100×50 grey-7 L-mode image. -/
def imgZ : Img := ⟨.L, 100, 50, List.replicate 50 (List.replicate 100 ⟨7, 0, 0, 255⟩)⟩

/-- A concrete 2×2 black L-mode image. -/
def img2x2 : Img :=
  ⟨.L, 2, 2, [[⟨0, 0, 0, 255⟩, ⟨0, 0, 0, 255⟩], [⟨0, 0, 0, 255⟩, ⟨0, 0, 0, 255⟩]]⟩

/-- A stand-in resampling routine (used to instantiate the resize
environment parameters in concrete runs): a black grid of the
requested size. -/
def constResize (_img : Img) (c r : ℕ) : Img :=
  ⟨.L, c, r, List.replicate r (List.replicate c ⟨0, 0, 0, 255⟩)⟩

theorem mapE_cons (f : α → Except String β) (x : α) (xs : List α) :
    mapE f (x :: xs) =
      (f x).bind (fun y => (mapE f xs).bind (fun ys => .ok (y :: ys))) := rfl

theorem foldE_cons (f : β → α → Except String β) (init : β) (x : α) (xs : List α) :
    foldE f init (x :: xs) = (f init x).bind (fun b => foldE f b xs) := rfl

theorem ok_bind (a : α) (f : α → Except String β) : (Except.ok a).bind f = f a := rfl

theorem error_bind (e : String) (f : α → Except String β) :
    (Except.error e).bind f = .error e := rfl

/-- `mapE` over everywhere-succeeding bodies succeeds, one output per
input, each output satisfying what its body guarantees. -/
theorem mapE_ok {α β : Type} {f : α → Except String β} {P : β → Prop} :
    ∀ {l : List α}, (∀ x ∈ l, ∃ y, f x = .ok y ∧ P y) →
      ∃ ys, mapE f l = .ok ys ∧ ys.length = l.length ∧ ∀ y ∈ ys, P y
  | [], _ => ⟨[], rfl, rfl, by simp⟩
  | x :: xs, h => by
      obtain ⟨y, hy, hPy⟩ := h x (List.mem_cons_self x xs)
      obtain ⟨ys, hys, hlen, hP⟩ := mapE_ok (fun a ha => h a (List.mem_cons_of_mem x ha))
      refine ⟨y :: ys, ?_, by simp [hlen], ?_⟩
      · simp [mapE_cons, hy, hys, ok_bind]
      · intro z hz
        rcases List.mem_cons.mp hz with rfl | hz
        · exact hPy
        · exact hP z hz

theorem except_bind_assoc (x : Except String α) (f : α → Except String β)
    (g : β → Except String γ) :
    (x.bind f).bind g = x.bind (fun a => (f a).bind g) := by
  cases x <;> rfl

/-- `mapE` with bodies that succeed pointwise equals `.ok` of the map. -/
theorem mapE_eq_map {f : α → Except String β} {g : α → β} :
    ∀ {l : List α}, (∀ x ∈ l, f x = .ok (g x)) → mapE f l = .ok (l.map g)
  | [], _ => rfl
  | x :: xs, h => by
      rw [mapE_cons, h x (List.mem_cons_self x xs),
        mapE_eq_map (fun a ha => h a (List.mem_cons_of_mem x ha)), ok_bind, ok_bind,
        List.map_cons]

theorem mapE_congr {f g : α → Except String β} :
    ∀ {l : List α}, (∀ x ∈ l, f x = g x) → mapE f l = mapE g l
  | [], _ => rfl
  | x :: xs, h => by
      rw [mapE_cons, mapE_cons, h x (List.mem_cons_self x xs),
        mapE_congr (fun a ha => h a (List.mem_cons_of_mem x ha))]

theorem getD_map_range (f : ℕ → α) {n i : ℕ} (d : α) (h : i < n) :
    ((List.range n).map f).getD i d = f i := by
  simp [List.getD_eq_getElem?_getD, List.getElem?_map, List.getElem?_range h]

/-- `interpolate_param` never raises for a progress in [0, 1] and
computes `interpolate_paramT`. -/
theorem interpolate_param_ok (v : PV) (pr : ℚ) (h0 : 0 ≤ pr) (h1 : pr ≤ 1) :
    interpolate_param v pr = .ok (interpolate_paramT v pr) := by
  cases v with
  | num q => rfl
  | pair a b =>
      simp only [interpolate_param, interpolate_value, interpolate_paramT]
      rw [if_neg (by simp [h0, h1])]
      rfl
  | triple a b c => rfl

theorem interpolate_parameters_ok (ps : Params) (pr : ℚ) (h0 : 0 ≤ pr) (h1 : pr ≤ 1) :
    interpolate_parameters ps pr =
      .ok (ps.map (fun kv => (kv.1, interpolate_paramT kv.2 pr))) := by
  unfold interpolate_parameters
  refine mapE_eq_map ?_
  intro kv _
  show (interpolate_param kv.2 pr).bind (fun v => .ok (kv.1, v)) = _
  rw [interpolate_param_ok kv.2 pr h0 h1, ok_bind]

/-- For a progress in [0, 1] the per-frame loop of `generate_frames`
never raises and computes `frame_image`: interpolation succeeds and a
failing effect application merely keeps the current state. -/
theorem render_frame_eq (env : Env) (base : Img)
    (effs : List (String × Params)) (pr : ℚ) (h0 : 0 ≤ pr) (h1 : pr ≤ 1) :
    render_frame env base effs pr = .ok (frame_image env base effs pr) := by
  unfold render_frame frame_image
  generalize Proc.init base = p0
  induction effs generalizing p0 with
  | nil => rfl
  | cons e es ih =>
      show (foldE _ p0 (e :: es)).bind _ = _
      rw [foldE_cons, except_bind_assoc, List.foldl_cons]
      have hstep : (do
            let fp ← interpolate_parameters e.2 pr
            match apply_effect env p0 e.1 fp with
            | .ok p' => .ok p'
            | .error _ => .ok p0 : Except String Proc) =
          .ok (frame_step env pr p0 e) := by
        show (interpolate_parameters e.2 pr).bind _ = _
        rw [interpolate_parameters_ok e.2 pr h0 h1, ok_bind]
        unfold frame_step
        rw [show (do
            let fp ← interpolate_parameters e.2 pr
            apply_effect env p0 e.1 fp : Except String Proc) =
          (interpolate_parameters e.2 pr).bind (apply_effect env p0 e.1) from rfl]
        rw [interpolate_parameters_ok e.2 pr h0 h1, ok_bind]
        rcases happ : apply_effect env p0 e.1
            (e.2.map (fun kv => (kv.1, interpolate_paramT kv.2 pr))) with e' | p'
        · rw [happ]
        · rw [happ]
      rw [hstep, ok_bind]
      exact ih (frame_step env pr p0 e)

/-- After successful validation, `generate_frames` with at least two
frames succeeds and renders frame `i` at progress `i / (N - 1)` from a
fresh processor on the base image. -/
theorem generate_frames_eq_map (env : Env) (img : Img)
    (effects effs : List (String × Params)) (N : ℕ)
    (hval : validate_effects effects = .ok effs) (hN : 2 ≤ N) :
    generate_frames env img effects N =
      .ok ((List.range N).map
        (fun (i : ℕ) => frame_image env img effs ((i : ℚ) / ((N : ℚ) - 1)))) := by
  show (validate_effects effects).bind _ = _
  rw [hval, ok_bind]
  refine mapE_eq_map ?_
  intro i hi
  have hiN : i < N := List.mem_range.mp hi
  have hden : (0 : ℚ) < (N : ℚ) - 1 := by
    have : (2 : ℚ) ≤ (N : ℚ) := by exact_mod_cast hN
    linarith
  rw [if_neg (by omega)]
  refine render_frame_eq env img effs _ ?_ ?_
  · exact div_nonneg (Nat.cast_nonneg i) (le_of_lt hden)
  · rw [div_le_one hden]
    have : (i : ℚ) + 1 ≤ (N : ℚ) := by exact_mod_cast Nat.succ_le_of_lt hiN
    linarith

theorem qtruncN_le_of_le {q : ℚ} {n : ℕ} (h : q ≤ (n : ℚ)) : qtruncN q ≤ n := by
  unfold qtruncN qtrunc
  split
  · have hf : ⌊q⌋ ≤ (n : ℤ) := by
      have := Int.floor_le_floor h
      simpa using this
    omega
  · rename_i hneg
    have hq0 : q ≤ 0 := le_of_lt (lt_of_not_le hneg)
    have hc : ⌈q⌉ ≤ 0 := Int.ceil_le.mpr (by exact_mod_cast hq0)
    omega

theorem charAt_ok {cs : List Char} {i : ℕ} (h : i < cs.length) :
    ∃ c, charAt cs i = .ok c := by
  unfold charAt
  rw [dif_pos h]
  exact ⟨_, rfl⟩

theorem cropMean_ok {vals : List ℕ} (hne : 0 < vals.length)
    (hbd : ∀ v ∈ vals, v ≤ 255) :
    ∃ a, cropMean vals = .ok a ∧ a ≤ 255 := by
  unfold cropMean
  rw [if_neg (by omega)]
  refine ⟨_, rfl, ?_⟩
  have hsum : vals.sum ≤ vals.length * 255 := by
    have := List.sum_le_card_nsmul vals 255 hbd
    simpa [smul_eq_mul] using this
  have hlenpos : (0 : ℚ) < (vals.length : ℚ) := by exact_mod_cast hne
  refine qtruncN_le_of_le ?_
  rw [div_le_iff₀ hlenpos]
  exact_mod_cast (by omega : vals.sum ≤ 255 * vals.length)

theorem mem_cropVals_bound {g : List (List ℕ)} {x1 x2 y1 y2 v : ℕ}
    (hv : v ∈ cropVals g x1 x2 y1 y2)
    (hval : ∀ row ∈ g, ∀ u ∈ row, u ≤ 255) : v ≤ 255 := by
  unfold cropVals at hv
  obtain ⟨piece, hpmem, hvp⟩ := List.mem_flatten.mp hv
  obtain ⟨row, hrmem, rfl⟩ := List.mem_map.mp hpmem
  have hrow : row ∈ g := List.drop_subset _ _ (List.take_subset _ _ hrmem)
  have hv' : v ∈ row := List.drop_subset _ _ (List.take_subset _ _ hvp)
  exact hval row hrow v hv'

theorem cropVals_length_pos {g : List (List ℕ)} {x1 x2 y1 y2 : ℕ}
    (hy1 : y1 < y2) (hy2 : y2 ≤ g.length) (hx1 : x1 < x2)
    (hrow : ∀ row ∈ g, x2 ≤ row.length) :
    0 < (cropVals g x1 x2 y1 y2).length := by
  have hd : g.drop y1 ≠ [] := by
    rw [ne_eq, List.drop_eq_nil_iff]
    omega
  obtain ⟨r, rest, hr⟩ := List.exists_cons_of_ne_nil hd
  obtain ⟨k, hk⟩ : ∃ k, y2 - y1 = k + 1 := ⟨y2 - y1 - 1, by omega⟩
  have hrg : r ∈ g := List.drop_subset y1 g (hr ▸ List.mem_cons_self r rest)
  have hrlen : x2 ≤ r.length := hrow r hrg
  unfold cropVals
  rw [hk, hr, List.take_succ_cons, List.map_cons, List.flatten_cons, List.length_append]
  have : 0 < ((r.drop x1).take (x2 - x1)).length := by
    rw [List.length_take, List.length_drop]
    omega
  omega

/-- Luminance values are bytes for byte-valued pixels. -/
theorem lum_le {m : Mode} {p : Pix} (hr : p.r ≤ 255) (hg : p.g ≤ 255)
    (hb : p.b ≤ 255) : lum m p ≤ 255 := by
  unfold lum
  cases m <;> simp <;> omega

theorem asciiCell_ok {grid : List (List ℕ)} (ml : Bool) {x1 x2 y1 y2 : ℕ}
    (hy1 : y1 < y2) (hy2 : y2 ≤ grid.length) (hx1 : x1 < x2)
    (hrow : ∀ row ∈ grid, x2 ≤ row.length)
    (hval : ∀ row ∈ grid, ∀ v ∈ row, v ≤ 255) :
    ∃ c, asciiCell grid ml x1 x2 y1 y2 = .ok c := by
  obtain ⟨a, ha, hale⟩ := cropMean_ok (cropVals_length_pos hy1 hy2 hx1 hrow)
    (fun v hv => mem_cropVals_bound hv hval)
  rw [show asciiCell grid ml x1 x2 y1 y2 =
      (cropMean (cropVals grid x1 x2 y1 y2)).bind (fun avg =>
        if ml then charAt gscale1 (avg * 69 / 255)
        else charAt gscale2 (avg * 9 / 255)) from rfl, ha, ok_bind]
  cases ml
  · simp only [Bool.false_eq_true, if_false]
    refine charAt_ok ?_
    have hidx : a * 9 / 255 ≤ 9 := by
      calc a * 9 / 255 ≤ 255 * 9 / 255 :=
            Nat.div_le_div_right (Nat.mul_le_mul_right 9 hale)
        _ = 9 := by norm_num
    have hlen : gscale2.length = 10 := by rfl
    omega
  · simp only [if_true]
    refine charAt_ok ?_
    have hidx : a * 69 / 255 ≤ 69 := by
      calc a * 69 / 255 ≤ 255 * 69 / 255 :=
            Nat.div_le_div_right (Nat.mul_le_mul_right 69 hale)
        _ = 69 := by norm_num
    have hlen : gscale1.length = 70 := by rfl
    omega

/-- Validation succeeds exactly when every name is recognised, and then
returns the list with every intensity rewritten. -/
theorem validate_effects_all_valid (effects : List (String × Params))
    (hv : ∀ e ∈ effects, validSet.contains e.1 = true) :
    validate_effects effects = .ok (effects.map normalizeSpec) := by
  unfold validate_effects
  rw [List.find?_eq_none.mpr ?_]
  intro x hx
  simpa using hv x hx

theorem apply_scan_gap0_error (env : Env) (p : Proc) :
    apply_effect env p "scan" [("gap", PV.num 0)] =
      .error "Gap must be at least 1 pixel" := by
  have hd : apply_effect env p "scan" [("gap", PV.num 0)] =
      apply_scan_lines p 0 (1/2) := by with_unfolding_all rfl
  rw [hd]
  unfold apply_scan_lines
  rw [if_pos (by norm_num)]

theorem frame_step_badScan (env : Env) (pr : ℚ) (p : Proc) :
    frame_step env pr p badScanSpec = p := by
  show (match (interpolate_parameters [("gap", PV.num 0)] pr).bind
      (apply_effect env p "scan") with
    | .ok p' => p'
    | .error _ => p) = p
  rw [show interpolate_parameters [("gap", PV.num 0)] pr = .ok [("gap", PV.num 0)] from rfl,
    ok_bind, apply_scan_gap0_error]

theorem frame_image_skip (env : Env) (img : Img)
    (effs1 effs2 : List (String × Params)) (pr : ℚ) :
    frame_image env img ((effs1 ++ badScanSpec :: effs2).map normalizeSpec) pr =
      frame_image env img ((effs1 ++ effs2).map normalizeSpec) pr := by
  unfold frame_image
  rw [List.map_append, List.map_append, List.map_cons, List.foldl_append,
    List.foldl_append, List.foldl_cons,
    show normalizeSpec badScanSpec = badScanSpec from rfl, frame_step_badScan]

theorem zipWith_interp_self (p : ℚ) :
    ∀ l : List ℚ, List.zipWith (fun a b => a + (b - a) * p) l l = l
  | [] => rfl
  | x :: xs => by simp [zipWith_interp_self p xs]

theorem zipWith_fst_of_length_eq :
    ∀ l1 l2 : List ℚ, l1.length = l2.length →
      List.zipWith (fun a _ => a) l1 l2 = l1
  | [], [], _ => rfl
  | [], _ :: _, h => by simp at h
  | _ :: _, [], h => by simp at h
  | x :: xs, _ :: ys, h => by
      rw [List.zipWith_cons_cons, zipWith_fst_of_length_eq xs ys (by simpa using h)]

theorem zipWith_snd_of_length_eq :
    ∀ l1 l2 : List ℚ, l1.length = l2.length →
      List.zipWith (fun _ b => b) l1 l2 = l2
  | [], [], _ => rfl
  | [], _ :: _, h => by simp at h
  | _ :: _, [], h => by simp at h
  | _ :: xs, y :: ys, h => by
      rw [List.zipWith_cons_cons, zipWith_snd_of_length_eq xs ys (by simpa using h)]

/-- C5: `interpolate_value` is the identity on equal endpoints for any
valid progress, returns the start at progress 0 and the end at
progress 1, both for scalars and for equal-length tuples. -/
theorem interpolate_value_endpoints (p : ℚ) (h0 : 0 ≤ p) (h1 : p ≤ 1) :
    (∀ q : ℚ, interpolate_value (.s q) (.s q) p = .ok (.s q)) ∧
    (∀ l : List ℚ, interpolate_value (.t l) (.t l) p = .ok (.t l)) ∧
    (∀ a b : ℚ, interpolate_value (.s a) (.s b) 0 = .ok (.s a)) ∧
    (∀ a b : ℚ, interpolate_value (.s a) (.s b) 1 = .ok (.s b)) ∧
    (∀ l1 l2 : List ℚ, l1.length = l2.length →
      interpolate_value (.t l1) (.t l2) 0 = .ok (.t l1) ∧
      interpolate_value (.t l1) (.t l2) 1 = .ok (.t l2)) := by
  refine ⟨?_, ?_, ?_, ?_, ?_⟩
  · intro q
    simp [interpolate_value, h0, h1]
  · intro l
    simp [interpolate_value, h0, h1, zipWith_interp_self]
  · intro a b
    norm_num [interpolate_value]
  · intro a b
    norm_num [interpolate_value]
  · intro l1 l2 hlen
    constructor
    · norm_num [interpolate_value, hlen]
      exact zipWith_fst_of_length_eq l1 l2 hlen
    · norm_num [interpolate_value, hlen]
      exact zipWith_snd_of_length_eq l1 l2 hlen

/-- Witness for C5 at concrete inputs. -/
theorem interpolate_value_endpoints_witness :
    interpolate_value (.s 3) (.s 3) (1/2) = .ok (.s 3) ∧
    interpolate_value (.t [1, 2]) (.t [5, 6]) 1 = .ok (.t [5, 6]) :=
  ⟨(interpolate_value_endpoints (1/2) (by norm_num) (by norm_num)).1 3,
   ((interpolate_value_endpoints (1/2) (by norm_num) (by norm_num)).2.2.2.2
      [1, 2] [5, 6] (by decide)).2⟩

/-- C1 (amended): `apply_effects_sequence` processes the spec list
strictly in the order the caller supplied it — the empty list is a
no-op and a cons applies its head before the rest; there is no
canonical reordering. -/
theorem effects_applied_in_list_order (env : Env) (p : Proc)
    (e : String × Params) (es : List (String × Params)) :
    apply_effects_sequence env p [] = .ok p ∧
    apply_effects_sequence env p (e :: es) =
      (apply_effect env p e.1 e.2).bind
        (fun p' => apply_effects_sequence env p' es) := by
  constructor
  · rfl
  · rfl

/-- C1 counterexample: the same two specs in the two orders render
different images — `[scan, pulse]` gives grey 130, `[pulse, scan]`
grey 128 on the same 1×1 base — so the spec list is not
order-independent and no canonical order is imposed. -/
theorem scan_pulse_order_counterexample :
    apply_effects_sequence envC (Proc.init img1) [scanSpec, pulseSpec] ≠
      apply_effects_sequence envC (Proc.init img1) [pulseSpec, scanSpec] := by
  with_unfolding_all decide

/-- C4 (amended): for every effect and declared parameter, a call
exactly at the declared bound succeeds and a call one unit outside
fails with a range error that names the parameter and the valid bounds
(but not the effect nor the offending value); an unrecognised effect
name fails with an unknown-effect error naming the effect. -/
theorem effect_bounds_validation :
    (apply_effect envC (Proc.init img1) "glitch" [("intensity", PV.num 0)]).isOk = true ∧
    (apply_effect envC (Proc.init img1) "glitch" [("intensity", PV.num 1)]).isOk = true ∧
    apply_effect envC (Proc.init img1) "glitch" [("intensity", PV.num (-1))] =
      .error "Intensity must be between 0 and 1" ∧
    apply_effect envC (Proc.init img1) "glitch" [("intensity", PV.num 2)] =
      .error "Intensity must be between 0 and 1" ∧
    (apply_effect envC (Proc.init img1) "chroma" [("offset", PV.num 0)]).isOk = true ∧
    (apply_effect envC (Proc.init img1) "chroma" [("offset", PV.num 1)]).isOk = true ∧
    apply_effect envC (Proc.init img1) "chroma" [("offset", PV.num (-1))] =
      .error "Offset must be between 0 and 1" ∧
    apply_effect envC (Proc.init img1) "chroma" [("offset", PV.num 2)] =
      .error "Offset must be between 0 and 1" ∧
    (apply_effect envC (Proc.init img1) "scan" [("gap", PV.num 1)]).isOk = true ∧
    apply_effect envC (Proc.init img1) "scan" [("gap", PV.num 0)] =
      .error "Gap must be at least 1 pixel" ∧
    (apply_effect envC (Proc.init img1) "scan"
      [("gap", PV.num 1), ("opacity", PV.num 0)]).isOk = true ∧
    (apply_effect envC (Proc.init img1) "scan"
      [("gap", PV.num 1), ("opacity", PV.num 1)]).isOk = true ∧
    apply_effect envC (Proc.init img1) "scan"
      [("gap", PV.num 1), ("opacity", PV.num (-1))] =
      .error "Opacity must be between 0 and 1" ∧
    apply_effect envC (Proc.init img1) "scan"
      [("gap", PV.num 1), ("opacity", PV.num 2)] =
      .error "Opacity must be between 0 and 1" ∧
    (apply_effect envC (Proc.init img1) "noise" [("intensity", PV.num 0)]).isOk = true ∧
    (apply_effect envC (Proc.init img1) "noise" [("intensity", PV.num 1)]).isOk = true ∧
    apply_effect envC (Proc.init img1) "noise" [("intensity", PV.num (-1))] =
      .error "Intensity must be between 0 and 1" ∧
    apply_effect envC (Proc.init img1) "noise" [("intensity", PV.num 2)] =
      .error "Intensity must be between 0 and 1" ∧
    (apply_effect envC (Proc.init img1) "energy" [("intensity", PV.num 0)]).isOk = true ∧
    (apply_effect envC (Proc.init img1) "energy" [("intensity", PV.num 1)]).isOk = true ∧
    apply_effect envC (Proc.init img1) "energy" [("intensity", PV.num (-1))] =
      .error "Intensity must be between 0 and 1" ∧
    apply_effect envC (Proc.init img1) "energy" [("intensity", PV.num 2)] =
      .error "Intensity must be between 0 and 1" ∧
    (apply_effect envC (Proc.init img1) "pulse" [("intensity", PV.num 0)]).isOk = true ∧
    (apply_effect envC (Proc.init img1) "pulse" [("intensity", PV.num 1)]).isOk = true ∧
    apply_effect envC (Proc.init img1) "pulse" [("intensity", PV.num (-1))] =
      .error "Intensity must be between 0 and 1" ∧
    apply_effect envC (Proc.init img1) "pulse" [("intensity", PV.num 2)] =
      .error "Intensity must be between 0 and 1" ∧
    (apply_effect envC (Proc.init img1) "consciousness"
      [("intensity", PV.num 0)]).isOk = true ∧
    (apply_effect envC (Proc.init img1) "consciousness"
      [("intensity", PV.num 1)]).isOk = true ∧
    apply_effect envC (Proc.init img1) "consciousness" [("intensity", PV.num (-1))] =
      .error "Intensity must be between 0 and 1" ∧
    apply_effect envC (Proc.init img1) "consciousness" [("intensity", PV.num 2)] =
      .error "Intensity must be between 0 and 1" ∧
    apply_effect envC (Proc.init img1) "vaporwave" [] =
      .error "Unknown effect: vaporwave" := by
  with_unfolding_all decide

/-- C4 counterexample: the range error raised for glitch at intensity
2 does not name the effect and does not name the offending value — the
message contains neither the substring "glitch" nor "2" — refuting the
claim that range errors name the effect, parameter, value and bounds. -/
theorem range_error_message_counterexample :
    apply_effect envC (Proc.init img1) "glitch" [("intensity", PV.num 2)] =
      .error "Intensity must be between 0 and 1" ∧
    ¬ ("glitch".toList <:+: "Intensity must be between 0 and 1".toList) ∧
    ¬ ("2".toList <:+: "Intensity must be between 0 and 1".toList) := by
  with_unfolding_all decide

/-- C6 (amended): `undo` pops the most recent history snapshot.  For an
effect that records exactly one snapshot, such as pulse, one undo
restores the exact pre-call state; `undo` on an empty history returns
`False` and leaves the state unchanged.  (Composite effects record
several snapshots per call, so one undo need not reach the pre-call
image — see the counterexample.) -/
theorem undo_after_pulse_and_empty_history :
    (∀ (env : Env) (p : Proc) (ps : Params) (p' : Proc),
      apply_effect env p "pulse" ps = .ok p' → undo p' = (true, p)) ∧
    (∀ p : Proc, p.history = [] → undo p = (false, p)) := by
  constructor
  · intro env p ps p' h
    have hd : apply_effect env p "pulse" ps =
        ((ps.get "intensity" (.num (1/2))).asScalar).bind (apply_pulse_effect p) := rfl
    rw [hd] at h
    rcases hv : (ps.get "intensity" (.num (1/2))).asScalar with e | q
    · rw [hv, error_bind] at h
      exact absurd h (by simp)
    · rw [hv, ok_bind] at h
      unfold apply_pulse_effect at h
      split at h
      · exact absurd h (by simp)
      · injection h with h'
        subst h'
        cases p
        rfl
  · intro p h
    cases p
    simp only at h
    subst h
    rfl

/-- Witness for C6: pulse at intensity 0.5 on the 1×1 base, then undo,
restores the initial processor state exactly. -/
theorem undo_after_pulse_witness :
    undo pulsedProc = (true, Proc.init img1) :=
  (undo_after_pulse_and_empty_history).1 envC (Proc.init img1)
    [("intensity", PV.num (1/2))] pulsedProc (by with_unfolding_all decide)

/-- C6 counterexample: one `apply_effect('consciousness', 0.4)` call on
a 1×1 RGBA image records four history snapshots (composite + mode
conversion), so a single undo lands on an intermediate RGB image — not
the pixel-identical RGBA image that was current before the call. -/
theorem undo_after_consciousness_counterexample :
    (apply_effect envC (Proc.init imgA) "consciousness"
        [("intensity", PV.num (2/5))]).map (fun p => (undo p).2.current) =
      .ok (⟨.RGB, 1, 1, [[⟨10, 20, 30, 255⟩]]⟩ : Img) ∧
    (⟨.RGB, 1, 1, [[⟨10, 20, 30, 255⟩]]⟩ : Img) ≠ imgA := by
  with_unfolding_all decide

/-- C2 (amended): after validation (which rewrites intensities by
`/100` and clamping), `generate_frames` with `N ≥ 2` returns exactly
`N` frames, frame 0 is rendered at progress 0 and frame `N-1` at
progress 1, and a `(start, end)` range parameter interpolates to
`start` at progress 0 and to `end` at progress 1. -/
theorem generate_frames_count_and_endpoints (env : Env) (img : Img)
    (effects effs : List (String × Params)) (N : ℕ)
    (hval : validate_effects effects = .ok effs) (hN : 2 ≤ N) :
    generate_frames env img effects N =
      .ok ((List.range N).map
        (fun (i : ℕ) => frame_image env img effs ((i : ℚ) / ((N : ℚ) - 1)))) ∧
    ((List.range N).map
        (fun (i : ℕ) => frame_image env img effs ((i : ℚ) / ((N : ℚ) - 1)))).length = N ∧
    ((List.range N).map
        (fun (i : ℕ) => frame_image env img effs ((i : ℚ) / ((N : ℚ) - 1))))[0]? =
      some (frame_image env img effs 0) ∧
    ((List.range N).map
        (fun (i : ℕ) => frame_image env img effs ((i : ℚ) / ((N : ℚ) - 1))))[N - 1]? =
      some (frame_image env img effs 1) ∧
    (∀ a b : ℚ, interpolate_param (.pair a b) 0 = .ok (.num a) ∧
      interpolate_param (.pair a b) 1 = .ok (.num b)) := by
  refine ⟨generate_frames_eq_map env img effects effs N hval hN, by simp, ?_, ?_, ?_⟩
  · rw [List.getElem?_map, List.getElem?_range (by omega)]
    norm_num
  · rw [List.getElem?_map, List.getElem?_range (by omega)]
    have h2 : (2 : ℚ) ≤ (N : ℚ) := by exact_mod_cast hN
    have hone : ((N - 1 : ℕ) : ℚ) / ((N : ℚ) - 1) = 1 := by
      rw [Nat.cast_sub (by omega)]
      push_cast
      exact div_self (by linarith)
    simp [hone]
  · intro a b
    constructor
    · have h := interpolate_param_ok (.pair a b) 0 le_rfl zero_le_one
      simp only [interpolate_paramT] at h
      simpa using h
    · have h := interpolate_param_ok (.pair a b) 1 zero_le_one le_rfl
      simp only [interpolate_paramT] at h
      have hb : a + (b - a) * 1 = b := by ring
      rw [h, hb]

/-- C2 counterexample: with `num_frames = 1` (allowed by the claim's
`N ≥ 1`) frame generation fails on a division by zero instead of
returning one frame; moreover a raw intensity range `(30, 80)` is
normalized to `(0.3, 0.8)` before interpolation, so the value applied
at frame 0 is 0.3, not the caller's start value 30. -/
theorem generate_frames_claim_counterexample :
    generate_frames envC img1 [rangePulseSpec] 1 =
      .error "ZeroDivisionError: division by zero" ∧
    validate_effects [rangePulseSpec] =
      .ok [("pulse", [("intensity", PV.pair (3/10) (4/5))])] ∧
    ((3 : ℚ)/10 ≠ 30) := by
  with_unfolding_all decide

/-- Witness for C2 at a concrete run: two frames from one ranged
pulse spec. -/
theorem generate_frames_count_witness :
    generate_frames envC img1 [rangePulseSpec] 2 =
      .ok ((List.range 2).map
        (fun (i : ℕ) => frame_image envC img1
          [("pulse", [("intensity", PV.pair (3/10) (4/5))])] ((i : ℚ) / ((2 : ℚ) - 1)))) ∧
    ((List.range 2).map
        (fun (i : ℕ) => frame_image envC img1
          [("pulse", [("intensity", PV.pair (3/10) (4/5))])]
          ((i : ℚ) / ((2 : ℚ) - 1)))).length = 2 := by
  have h := generate_frames_count_and_endpoints envC img1 [rangePulseSpec]
    [("pulse", [("intensity", PV.pair (3/10) (4/5))])] 2
    (by with_unfolding_all decide) (by norm_num)
  exact ⟨h.1, h.2.1⟩

/-- C7: an effect spec that raises on every state (scan with gap 0) is
skipped per frame: the animation run over `effs1 ++ [bad] ++ effs2`
renders exactly the same frames as over `effs1 ++ effs2`, and with
`N ≥ 2` the run still produces all `N` requested frames. -/
theorem failing_effect_skipped (env : Env) (img : Img)
    (effs1 effs2 : List (String × Params)) (N : ℕ)
    (hv1 : ∀ e ∈ effs1, validSet.contains e.1 = true)
    (hv2 : ∀ e ∈ effs2, validSet.contains e.1 = true)
    (hN : 2 ≤ N) :
    (∀ p : Proc, apply_effect env p "scan" [("gap", PV.num 0)] =
      .error "Gap must be at least 1 pixel") ∧
    generate_frames env img (effs1 ++ badScanSpec :: effs2) N =
      generate_frames env img (effs1 ++ effs2) N ∧
    generate_frames env img (effs1 ++ effs2) N =
      .ok ((List.range N).map (fun (i : ℕ) =>
        frame_image env img ((effs1 ++ effs2).map normalizeSpec)
          ((i : ℚ) / ((N : ℚ) - 1)))) ∧
    ((List.range N).map (fun (i : ℕ) =>
        frame_image env img ((effs1 ++ effs2).map normalizeSpec)
          ((i : ℚ) / ((N : ℚ) - 1)))).length = N := by
  have hval2 : validate_effects (effs1 ++ effs2) =
      .ok ((effs1 ++ effs2).map normalizeSpec) := by
    refine validate_effects_all_valid _ ?_
    intro e he
    rcases List.mem_append.mp he with h | h
    exacts [hv1 e h, hv2 e h]
  have hval1 : validate_effects (effs1 ++ badScanSpec :: effs2) =
      .ok ((effs1 ++ badScanSpec :: effs2).map normalizeSpec) := by
    refine validate_effects_all_valid _ ?_
    intro e he
    rcases List.mem_append.mp he with h | h
    · exact hv1 e h
    · rcases List.mem_cons.mp h with rfl | h
      · rfl
      · exact hv2 e h
  refine ⟨fun p => apply_scan_gap0_error env p, ?_,
    generate_frames_eq_map env img _ _ N hval2 hN, by simp⟩
  rw [generate_frames_eq_map env img _ _ N hval1 hN,
    generate_frames_eq_map env img _ _ N hval2 hN]
  simp only [frame_image_skip]

/-- Witness for C7: a failing scan spec in the middle of a concrete
two-frame run changes nothing. -/
theorem failing_effect_skipped_witness :
    generate_frames envC img1 [pulseSpec, badScanSpec] 2 =
      generate_frames envC img1 [pulseSpec] 2 :=
  (failing_effect_skipped envC img1 [pulseSpec] [] 2
    (by decide) (by decide) (by norm_num)).2.1

/-- C10: animation validation never rejects an intensity value —
whenever every name is valid it succeeds and rewrites each intensity
(scalar or range) to `clamp01(v / 100)`, frames are then generated
from the rewritten list, and 5000 is processed as 1.0. -/
theorem intensity_normalized_before_frames (env : Env) (img : Img)
    (effects : List (String × Params)) (N : ℕ)
    (hv : ∀ e ∈ effects, validSet.contains e.1 = true) :
    validate_effects effects = .ok (effects.map normalizeSpec) ∧
    generate_frames env img effects N =
      mapE (fun (i : ℕ) =>
        if N - 1 = 0 then .error "ZeroDivisionError: division by zero"
        else render_frame env img (effects.map normalizeSpec)
          ((i : ℚ) / ((N : ℚ) - 1))) (List.range N) ∧
    (∀ q : ℚ, normalizeIntensity (.num q) = .num (clamp01 (q / 100))) ∧
    (∀ a b : ℚ, normalizeIntensity (.pair a b) =
      .pair (clamp01 (a / 100)) (clamp01 (b / 100))) ∧
    normalizeIntensity (.num 5000) = .num 1 ∧
    (∀ e ps, normalizeSpec (e, ps) =
      (e, ps.map (fun kv =>
        if kv.1 = "intensity" then (kv.1, normalizeIntensity kv.2) else kv))) := by
  refine ⟨validate_effects_all_valid effects hv, ?_, fun q => rfl, fun a b => rfl,
    by with_unfolding_all decide, fun e ps => rfl⟩
  show (validate_effects effects).bind _ = _
  rw [validate_effects_all_valid effects hv, ok_bind]

/-- Witness for C10: an intensity of 5000 passes validation and is
rewritten to 1.0. -/
theorem intensity_normalized_witness :
    validate_effects [("pulse", [("intensity", PV.num 5000)])] =
      .ok [("pulse", [("intensity", PV.num 1)])] := by
  have h := (intensity_normalized_before_frames envC img1
    [("pulse", [("intensity", PV.num 5000)])] 2 (by decide)).1
  rw [h]
  with_unfolding_all decide

/-- C9: the working canvas prepared by `AnimationProcessor.__init__`
always has even width and height — an odd dimension is rounded up by
one pixel, an even one is unchanged (in which case the base image is
used as is) — and when padding happens the base content is pasted at
the centering offset `((nw-w)//2, (nh-h)//2)` (which is 0 for a 1-pixel
pad) onto a transparent RGBA canvas, leaving transparent borders. -/
theorem prepare_canvas_spec (img : Img) :
    (prepare_canvas img).w = img.w + img.w % 2 ∧
    (prepare_canvas img).h = img.h + img.h % 2 ∧
    (prepare_canvas img).w % 2 = 0 ∧
    (prepare_canvas img).h % 2 = 0 ∧
    (img.w % 2 = 0 ∧ img.h % 2 = 0 → prepare_canvas img = img) ∧
    (¬ (img.w % 2 = 0 ∧ img.h % 2 = 0) →
      (prepare_canvas img).mode = Mode.RGBA ∧
      (∀ x y, x < img.w → y < img.h →
        pxAt (prepare_canvas img) x y = Pix.asRGBA img.mode (pxAt img x y)) ∧
      (∀ x y, x < img.w + img.w % 2 → y < img.h + img.h % 2 →
        img.w ≤ x ∨ img.h ≤ y →
        pxAt (prepare_canvas img) x y = ⟨0, 0, 0, 0⟩)) := by
  have hnw : (ensure_size_even img.w img.h).1 = img.w + img.w % 2 := by
    show (if img.w % 2 = 0 then img.w else img.w + 1) = img.w + img.w % 2
    split <;> omega
  have hnh : (ensure_size_even img.w img.h).2 = img.h + img.h % 2 := by
    show (if img.h % 2 = 0 then img.h else img.h + 1) = img.h + img.h % 2
    split <;> omega
  by_cases hc : img.w % 2 = 0 ∧ img.h % 2 = 0
  · have heq : prepare_canvas img = img := by
      unfold prepare_canvas
      rw [if_neg]
      simp only [ne_eq, not_not, Prod.mk.injEq]
      constructor
      · omega
      · omega
    refine ⟨?_, ?_, ?_, ?_, fun _ => heq, fun hodd => absurd hc hodd⟩
    · rw [heq]; omega
    · rw [heq]; omega
    · rw [heq]; omega
    · rw [heq]; omega
  · have hcnd : ((ensure_size_even img.w img.h).1, (ensure_size_even img.w img.h).2) ≠
        (img.w, img.h) := by
      rw [hnw, hnh]
      intro hcontra
      simp only [Prod.mk.injEq] at hcontra
      exact hc ⟨by omega, by omega⟩
    have heq : prepare_canvas img =
        { mode := .RGBA
          w := img.w + img.w % 2
          h := img.h + img.h % 2
          px := (List.range (img.h + img.h % 2)).map (fun y =>
            (List.range (img.w + img.w % 2)).map (fun x =>
              if (img.w + img.w % 2 - img.w) / 2 ≤ x ∧
                 x < (img.w + img.w % 2 - img.w) / 2 + img.w ∧
                 (img.h + img.h % 2 - img.h) / 2 ≤ y ∧
                 y < (img.h + img.h % 2 - img.h) / 2 + img.h then
                Pix.asRGBA img.mode
                  ((img.px.getD (y - (img.h + img.h % 2 - img.h) / 2) []).getD
                    (x - (img.w + img.w % 2 - img.w) / 2) ⟨0, 0, 0, 0⟩)
              else ⟨0, 0, 0, 0⟩)) } := by
      unfold prepare_canvas
      rw [if_pos hcnd, hnw, hnh]
    have hox : (img.w + img.w % 2 - img.w) / 2 = 0 := by omega
    have hoy : (img.h + img.h % 2 - img.h) / 2 = 0 := by omega
    rw [heq]
    refine ⟨rfl, rfl, by show (img.w + img.w % 2) % 2 = 0; omega,
      by show (img.h + img.h % 2) % 2 = 0; omega,
      fun hev => absurd hev hc, fun _ => ⟨rfl, ?_, ?_⟩⟩
    · intro x y hx hy
      unfold pxAt
      rw [getD_map_range _ _ (by omega), getD_map_range _ _ (by omega), hox, hoy,
        if_pos ⟨by omega, by omega, by omega, by omega⟩]
      simp
    · intro x y hx hy hout
      unfold pxAt
      rw [getD_map_range _ _ (by omega), getD_map_range _ _ (by omega), hox, hoy,
        if_neg]
      intro hcontra
      rcases hout with h | h
      · omega
      · omega

/-- Witness for C9 on a concrete 3×1 image: the canvas becomes 4×2
RGBA, the original pixel (0,0) is preserved, and the padded corner is
transparent. -/
theorem prepare_canvas_witness :
    (prepare_canvas imgOdd).w = 4 ∧
    (prepare_canvas imgOdd).h = 2 ∧
    pxAt (prepare_canvas imgOdd) 0 0 = ⟨1, 2, 3, 255⟩ ∧
    pxAt (prepare_canvas imgOdd) 3 1 = ⟨0, 0, 0, 0⟩ := by
  have h := prepare_canvas_spec imgOdd
  have hodd : ¬ (imgOdd.w % 2 = 0 ∧ imgOdd.h % 2 = 0) := by decide
  refine ⟨h.1.trans (by decide), h.2.1.trans (by decide), ?_, ?_⟩
  · exact ((h.2.2.2.2.2 hodd).2.1 0 0 (by decide) (by decide)).trans (by decide)
  · exact (h.2.2.2.2.2 hodd).2.2 3 1 (by decide) (by decide) (by decide)

/-- C8 (amended): on a well-formed 100×50 image,
`convertImageToAscii` with `cols=50, scale=0.43` returns exactly
`floor(50 / ((100/50)/0.43)) = 10` lines of exactly 50 characters, and
with `cols=500` raises the size error; `ASCIIProcessor.convert_to_ascii`
computes the same geometry (107 lines of 500 characters at `cols=500`)
but resizes with the smoother filter instead of raising — it has no
size-error path. -/
theorem ascii_geometry (img : Img) (himg : img.wf)
    (hw : img.w = 100) (hh : img.h = 50) :
    (∃ lines, convertImageToAscii img 50 (43/100) true = .ok lines ∧
      lines.length = 10 ∧ ∀ l ∈ lines, l.length = 50) ∧
    convertImageToAscii img 500 (43/100) true =
      .error "Image too small for specified columns" ∧
    (∀ lanczos nearest : Img → ℕ → ℕ → Img,
      (lanczos (img.toL) 500 107).px.length = 107 →
      (∀ row ∈ (lanczos (img.toL) 500 107).px,
        row.length = 500 ∧ ∀ p ∈ row, p.r ≤ 255) →
      ∃ lines, convert_to_ascii lanczos nearest img 500 (43/100) true = .ok lines ∧
        lines.length = 107 ∧ ∀ l ∈ lines, l.length = 500) := by
  obtain ⟨hlen, hrows⟩ := himg
  obtain ⟨m, w0, h0, px⟩ := img
  simp only at hw hh hlen hrows
  subst hw hh
  refine ⟨?_, ?_, ?_⟩
  · unfold convertImageToAscii
    norm_num [Img.toL]
    have h43 : qtrunc (43/4 : ℚ) = 10 := by with_unfolding_all decide
    rw [h43]
    norm_num
    have hY : ∀ j : ℕ, j < 10 →
        (qtrunc ((j : ℚ) * (200/43))).toNat <
          (if j = 9 then 50 else (qtrunc (((j : ℚ) + 1) * (200/43))).toNat) ∧
        (if j = 9 then 50 else (qtrunc (((j : ℚ) + 1) * (200/43))).toNat) ≤ 50 := by
      with_unfolding_all decide
    have hX : ∀ i : ℕ, i < 50 →
        (qtrunc ((i : ℚ) * 2)).toNat <
          (if i = 49 then 100 else (qtrunc (((i : ℚ) + 1) * 2)).toNat) ∧
        (if i = 49 then 100 else (qtrunc (((i : ℚ) + 1) * 2)).toNat) ≤ 100 := by
      with_unfolding_all decide
    have hgrid_len : (List.map
        (List.map (Pix.r ∘ fun p => (⟨lum m p, 0, 0, 255⟩ : Pix))) px).length = 50 := by
      simpa using hlen
    have hgrid_row : ∀ row ∈ List.map
        (List.map (Pix.r ∘ fun p => (⟨lum m p, 0, 0, 255⟩ : Pix))) px,
        row.length = 100 ∧ ∀ v ∈ row, v ≤ 255 := by
      intro row hr
      obtain ⟨r, hrpx, rfl⟩ := List.mem_map.mp hr
      obtain ⟨hr100, hrbd⟩ := hrows r hrpx
      constructor
      · simpa using hr100
      · intro v hv
        obtain ⟨p, hp, rfl⟩ := List.mem_map.mp hv
        obtain ⟨h1, h2, h3, _⟩ := hrbd p hp
        exact lum_le h1 h2 h3
    have hbody : ∀ j ∈ List.range 10, ∃ s : String,
        (mapE (fun (i : ℕ) =>
            asciiCell (List.map
              (List.map (Pix.r ∘ fun p => (⟨lum m p, 0, 0, 255⟩ : Pix))) px)
              true (qtrunc ((i : ℚ) * 2)).toNat
              (if i = 49 then 100 else (qtrunc (((i : ℚ) + 1) * 2)).toNat)
              (qtrunc ((j : ℚ) * (200/43))).toNat
              (if j = 9 then 50 else (qtrunc (((j : ℚ) + 1) * (200/43))).toNat))
          (List.range 50)).bind (fun cs => Except.ok (String.mk cs)) = .ok s ∧
        s.length = 50 := by
      intro j hj
      have hjlt : j < 10 := List.mem_range.mp hj
      have hcell : ∀ i ∈ List.range 50, ∃ c,
          asciiCell (List.map
            (List.map (Pix.r ∘ fun p => (⟨lum m p, 0, 0, 255⟩ : Pix))) px)
            true (qtrunc ((i : ℚ) * 2)).toNat
            (if i = 49 then 100 else (qtrunc (((i : ℚ) + 1) * 2)).toNat)
            (qtrunc ((j : ℚ) * (200/43))).toNat
            (if j = 9 then 50 else (qtrunc (((j : ℚ) + 1) * (200/43))).toNat) = .ok c ∧
          True := by
        intro i hi
        have hilt : i < 50 := List.mem_range.mp hi
        obtain ⟨c, hc⟩ := asciiCell_ok true (hY j hjlt).1
          (by rw [hgrid_len]; exact (hY j hjlt).2)
          (hX i hilt).1
          (fun row hr => by rw [(hgrid_row row hr).1]; exact (hX i hilt).2)
          (fun row hr => (hgrid_row row hr).2)
        exact ⟨c, hc, trivial⟩
      obtain ⟨cs, hcs, hcslen, -⟩ := mapE_ok hcell
      refine ⟨String.mk cs, ?_, ?_⟩
      · rw [hcs, ok_bind]
      · show (String.mk cs).length = 50
        simpa using hcslen
    obtain ⟨lines, hmap, hlen10, hP⟩ := mapE_ok hbody
    exact ⟨lines, hmap, by simpa using hlen10, hP⟩
  · unfold convertImageToAscii
    norm_num [Img.toL]
  · intro lanczos nearest hrl hrw
    unfold convert_to_ascii
    norm_num [Img.toL]
    simp only [Img.toL] at hrl hrw
    have h107 : (qtrunc (215/2 : ℚ)).toNat = 107 := by with_unfolding_all decide
    rw [h107]
    have hbody : ∀ row ∈ (lanczos
          (⟨Mode.L, 100, 50,
            List.map (List.map fun p => (⟨lum m p, 0, 0, 255⟩ : Pix)) px⟩ : Img)
          500 107).px,
        ∃ s : String,
          (mapE (fun p =>
              charAt detailed_chars (p.r * (detailed_chars.length - 1) / 255)) row).bind
            (fun cs => Except.ok (String.mk cs)) = .ok s ∧ s.length = 500 := by
      intro row hr
      obtain ⟨h500, hbd⟩ := hrw row hr
      have hinner : ∀ p ∈ row, ∃ c,
          charAt detailed_chars (p.r * (detailed_chars.length - 1) / 255) = .ok c ∧
          True := by
        intro p hp
        have hb := hbd p hp
        have hlen23 : detailed_chars.length = 23 := rfl
        obtain ⟨c, hc⟩ := @charAt_ok detailed_chars
          (p.r * (detailed_chars.length - 1) / 255) (by
            rw [hlen23]
            have : p.r * 22 / 255 ≤ 255 * 22 / 255 :=
              Nat.div_le_div_right (Nat.mul_le_mul_right 22 hb)
            omega)
        exact ⟨c, hc, trivial⟩
      obtain ⟨cs, hcs, hcslen, -⟩ := mapE_ok hinner
      refine ⟨String.mk cs, ?_, ?_⟩
      · rw [hcs, ok_bind]
      · show (String.mk cs).length = 500
        simpa [h500] using hcslen
    obtain ⟨lines, hmap, hl, hP⟩ := mapE_ok hbody
    refine ⟨lines, hmap, ?_, hP⟩
    rw [hl, hrl]

/-- C8 counterexample: the core ASCII processor does not raise a size
error when more columns than source pixels are requested — on a 2×2
image with `cols = 4` (with the resampling routines instantiated by a
stub) it returns a rendered line instead of an error. -/
theorem core_ascii_no_size_error :
    convert_to_ascii constResize constResize img2x2 4 (43/100) true = .ok ["    "] := by
  with_unfolding_all decide

/-- Witness for C8: a concrete 100×50 image raises the size error at
`cols = 500`. -/
theorem ascii_geometry_witness :
    convertImageToAscii imgZ 500 (43/100) true =
      .error "Image too small for specified columns" :=
  (ascii_geometry imgZ (by with_unfolding_all decide) rfl rfl).2.1

/-- C3: `generate_frames` with `num_frames = 1` reaches the unguarded
`progress = i / (num_frames - 1)` with a zero divisor and fails, even
though validation accepted the effect list. -/
theorem generate_frames_one_frame_divzero :
    validate_effects [pulseSpec] = .ok [("pulse", [("intensity", PV.num (3/1000))])] ∧
    generate_frames envC img1 [pulseSpec] 1 =
      .error "ZeroDivisionError: division by zero" := by
  with_unfolding_all decide

end Tetimi
